import Mathlib

/-!
Verification of the KrishiMitra agricultural assistant repository.

The development shallowly embeds the data-transformation logic of the
repository: the query router and graph node wrappers (krishimitra.py),
the PDF parser with per-page OCR fallback (parser/parser.py), the RAG
chunking and prompt-assembly logic (rag/rag.py), the domain agents
(agents/crop.py, agents/weather.py, agents/policy.py, agents/market.py)
and the LLM invocation helper (utils/chat.py).  External services (the
LLM, the vector store and sentence splitter, the OCR engine, web search,
geolocation and the weather API) are modelled as parameters: functions
or outcome values supplied to the embedded code, exactly at the points
the Python code calls out to them.
-/

namespace KrishiMitra

/-- Chat messages as in langchain_core.messages: human, AI and system
messages, each carrying a string content. -/
inductive Message where
  | human (content : String)
  | ai (content : String)
  | system (content : String)
deriving DecidableEq, Repr

/-- Content string of a message. -/
def Message.content : Message → String
  | .human c => c
  | .ai c => c
  | .system c => c

/-- Does the character list start with the given pattern?  Helper for the
Python substring test. -/
def charsStartWith : List Char → List Char → Bool
  | _, [] => true
  | [], _ :: _ => false
  | c :: cs, d :: ds => c == d && charsStartWith cs ds

/-- Does the character list contain the pattern as a contiguous run?
Models the Python operator `needle in hay` on strings. -/
def charsContain : List Char → List Char → Bool
  | [], needle => needle.isEmpty
  | c :: cs, needle => charsStartWith (c :: cs) needle || charsContain cs needle

/-- Python substring test `needle in hay`. -/
def strIn (needle hay : String) : Bool := charsContain hay.data needle.data

/-- Python str.lower, modelled character-wise on the ASCII range. -/
def pyLower (s : String) : String := String.mk (s.data.map Char.toLower)

/-- Keyword list of the crop group in route_query (krishimitra.py line 36). -/
def cropKeywords : List String :=
  ["crop", "fertilizer", "yield", "paddy", "wheat", "sowing", "harvest"]

/-- Keyword list of the market group in route_query (krishimitra.py line 38). -/
def marketKeywords : List String :=
  ["price", "market", "sell", "msp", "buy", "mandi", "rates"]

/-- Keyword list of the weather group in route_query (krishimitra.py line 40). -/
def weatherKeywords : List String :=
  ["weather", "rain", "temperature", "forecast", "humidity", "wind"]

/-- Keyword list of the policy group in route_query (krishimitra.py line 42). -/
def policyKeywords : List String :=
  ["policy", "scheme", "subsidy", "government", "pm-kisan", "insurance"]

/-- Does the lower-cased last message contain some keyword of the group?
Models `any(w in last for w in [...])`. -/
def groupMatches (group : List String) (last : String) : Bool :=
  group.any (fun w => strIn w last)

/-- route_query from krishimitra.py (lines 26 to 48): decides which agent
handles the query, from the lower-cased content of the last message.  The
embedding returns the value stored under the key next of the partial state
update. -/
def route_query (messages : List Message) : String :=
  match messages.getLast? with
  | none => "PolicyAgent"
  | some m =>
    let last := pyLower m.content
    if groupMatches cropKeywords last then "CropResearch"
    else if groupMatches marketKeywords last then "MarketAgent"
    else if groupMatches weatherKeywords last then "WeatherAgent"
    else if groupMatches policyKeywords last then "PolicyAgent"
    else "PolicyAgent"

/-- Partial state update returned by a graph node: the response string and
the new message list. -/
structure NodeUpdate where
  response : String
  messages : List Message
deriving DecidableEq, Repr

end KrishiMitra

namespace KrishiMitra

/-- C3: route_query always returns one of the four agent names; an empty
message list routes to PolicyAgent; when the lower-cased last message
matches none of the four keyword groups the result is PolicyAgent; and the
groups are tested in the fixed order crop, market, weather, policy, the
first match deciding. -/
theorem routeQuery_spec (messages : List Message) :
    route_query messages ∈
      (["CropResearch", "MarketAgent", "WeatherAgent", "PolicyAgent"] : List String)
    ∧ (messages = [] → route_query messages = "PolicyAgent")
    ∧ (∀ m, messages.getLast? = some m →
        (groupMatches cropKeywords (pyLower m.content) = true →
            route_query messages = "CropResearch")
        ∧ (groupMatches cropKeywords (pyLower m.content) = false →
            groupMatches marketKeywords (pyLower m.content) = true →
            route_query messages = "MarketAgent")
        ∧ (groupMatches cropKeywords (pyLower m.content) = false →
            groupMatches marketKeywords (pyLower m.content) = false →
            groupMatches weatherKeywords (pyLower m.content) = true →
            route_query messages = "WeatherAgent")
        ∧ (groupMatches cropKeywords (pyLower m.content) = false →
            groupMatches marketKeywords (pyLower m.content) = false →
            groupMatches weatherKeywords (pyLower m.content) = false →
            route_query messages = "PolicyAgent")) := by
  refine ⟨?_, ?_, ?_⟩
  · unfold route_query
    cases h : messages.getLast? with
    | none => simp
    | some m =>
      by_cases h1 : groupMatches cropKeywords (pyLower m.content) <;>
        by_cases h2 : groupMatches marketKeywords (pyLower m.content) <;>
          by_cases h3 : groupMatches weatherKeywords (pyLower m.content) <;>
            by_cases h4 : groupMatches policyKeywords (pyLower m.content) <;>
              simp [h1, h2, h3, h4]
  · intro h
    subst h
    rfl
  · intro m hm
    refine ⟨?_, ?_, ?_, ?_⟩
    · intro h1
      unfold route_query
      rw [hm]
      simp [h1]
    · intro h1 h2
      unfold route_query
      rw [hm]
      simp [h1, h2]
    · intro h1 h2 h3
      unfold route_query
      rw [hm]
      simp [h1, h2, h3]
    · intro h1 h2 h3
      unfold route_query
      rw [hm]
      simp [h1, h2, h3]

/-- Witness for C3 at a concrete query: the crop group matches first, even
though a market keyword is also present. -/
theorem routeQuery_spec_witness :
    route_query [Message.human "Is the wheat price rising"] = "CropResearch" := by
  exact ((routeQuery_spec [Message.human "Is the wheat price rising"]).2.2
    (Message.human "Is the wheat price rising") rfl).1 (by decide)

end KrishiMitra

namespace KrishiMitra

/-- Python str.strip: whitespace removed from both ends, modelled
character-wise. -/
def pyStrip (s : String) : String :=
  String.mk (((s.data.dropWhile Char.isWhitespace).reverse.dropWhile
    Char.isWhitespace).reverse)

/-- One page of the opened document, as seen by PDFParser.parse
(parser/parser.py): the outcome of page.get_text(), whose failure
propagates out of parse, and the outcome of the whole render-and-OCR block
(get_pixmap, tobytes, Image.open, image_to_string), whose failure is
caught inside the page loop. -/
structure Page where
  get_text : Except String String
  ocr : Except String String

/-- Record of what parse did on one page: the string appended to
full_text, whether the OCR branch was entered, and whether OCR succeeded
(the increment of ocr_applied_count). -/
structure PageStep where
  contribution : String
  ocrInvoked : Bool
  ocrApplied : Bool
deriving DecidableEq, Repr

/-- Body of the page loop of PDFParser.parse (parser/parser.py lines 61 to
90) on the 0-based page page_num: direct text is used when its stripped
length is at least 50; otherwise OCR is attempted, a failure being replaced
by the bracketed placeholder naming the 1-based page number. -/
def processPage (page_num : Nat) (page : Page) : Except String PageStep :=
  match page.get_text with
  | .error e => .error e
  | .ok text =>
    if (pyStrip text).length < 50 then
      match page.ocr with
      | .ok ocr_text =>
          .ok { contribution := ocr_text, ocrInvoked := true, ocrApplied := true }
      | .error _ =>
          .ok { contribution := "[OCR ERROR ON PAGE " ++ toString (page_num + 1) ++ "]",
                ocrInvoked := true, ocrApplied := false }
    else
      .ok { contribution := text, ocrInvoked := false, ocrApplied := false }

/-- The page loop of PDFParser.parse, page by page in ascending order; a
failure of direct text extraction aborts the loop and propagates. -/
def parseTraceLoop : Nat → List Page → Except String (List PageStep)
  | _, [] => .ok []
  | page_num, page :: rest =>
    match processPage page_num page with
    | .error e => .error e
    | .ok step =>
      match parseTraceLoop (page_num + 1) rest with
      | .error e => .error e
      | .ok steps => .ok (step :: steps)

/-- Instrumented run of PDFParser.parse: the opened document is either an
opening failure, which is re-raised, or its list of pages, which the page
loop processes from page 0. -/
def parseTrace (doc : Except String (List Page)) : Except String (List PageStep) :=
  match doc with
  | .error e => .error e
  | .ok pages => parseTraceLoop 0 pages

/-- PDFParser.parse (parser/parser.py lines 42 to 108): the per-page
contributions joined by a blank line. -/
def PDFParser.parse (doc : Except String (List Page)) : Except String String :=
  (parseTrace doc).map (fun steps =>
    String.intercalate "\n\n" (steps.map PageStep.contribution))

theorem processPage_direct (k : Nat) (p : Page) (t : String)
    (hget : p.get_text = Except.ok t) (hlen : ¬ (pyStrip t).length < 50) :
    processPage k p
      = Except.ok { contribution := t, ocrInvoked := false, ocrApplied := false } := by
  simp [processPage, hget, hlen]

theorem processPage_ocr (k : Nat) (p : Page) (t s : String)
    (hget : p.get_text = Except.ok t) (hlen : (pyStrip t).length < 50)
    (hocr : p.ocr = Except.ok s) :
    processPage k p
      = Except.ok { contribution := s, ocrInvoked := true, ocrApplied := true } := by
  simp [processPage, hget, hlen, hocr]

theorem processPage_ocr_error (k : Nat) (p : Page) (t e : String)
    (hget : p.get_text = Except.ok t) (hlen : (pyStrip t).length < 50)
    (hocr : p.ocr = Except.error e) :
    processPage k p
      = Except.ok { contribution := "[OCR ERROR ON PAGE " ++ toString (k + 1) ++ "]",
                    ocrInvoked := true, ocrApplied := false } := by
  simp [processPage, hget, hlen, hocr]

theorem processPage_get_text_error (k : Nat) (p : Page) (e : String)
    (hget : p.get_text = Except.error e) :
    processPage k p = Except.error e := by
  simp [processPage, hget]

theorem processPage_ok_of_get_text_ok (k : Nat) (p : Page) (t : String)
    (hget : p.get_text = Except.ok t) :
    ∃ step, processPage k p = Except.ok step := by
  by_cases h : (pyStrip t).length < 50
  · cases hocr : p.ocr with
    | ok s => exact ⟨_, processPage_ocr k p t s hget h hocr⟩
    | error e => exact ⟨_, processPage_ocr_error k p t e hget h hocr⟩
  · exact ⟨_, processPage_direct k p t hget h⟩

/-- When direct extraction succeeds on every page, the loop succeeds and
its steps are the per-page processings, in order. -/
theorem parseTraceLoop_spec (pages : List Page) :
    ∀ k, (∀ p ∈ pages, ∃ t, p.get_text = Except.ok t) →
    ∃ steps, parseTraceLoop k pages = Except.ok steps
      ∧ steps.length = pages.length
      ∧ ∀ i p, pages[i]? = some p →
          ∃ step, steps[i]? = some step ∧ processPage (k + i) p = Except.ok step := by
  induction pages with
  | nil =>
    intro k _
    exact ⟨[], rfl, rfl, by intro i p hp; simp at hp⟩
  | cons q rest ih =>
    intro k hget
    obtain ⟨t, ht⟩ := hget q (List.mem_cons_self ..)
    obtain ⟨step, hstep⟩ := processPage_ok_of_get_text_ok k q t ht
    obtain ⟨steps, hloop, hlen, hidx⟩ :=
      ih (k + 1) (fun p hp => hget p (List.mem_cons_of_mem _ hp))
    refine ⟨step :: steps, ?_, by simp [hlen], ?_⟩
    · simp [parseTraceLoop, hstep, hloop]
    · intro i p hp
      cases i with
      | zero =>
        simp at hp
        subst hp
        exact ⟨step, by simp, by simpa using hstep⟩
      | succ n =>
        simp at hp
        obtain ⟨st, hst, hproc⟩ := hidx n p hp
        refine ⟨st, by simpa using hst, ?_⟩
        have harith : (k + 1) + n = k + (n + 1) := by omega
        rw [harith] at hproc
        exact hproc

/-- A failure of direct text extraction aborts the loop at that page and is
the value produced for the whole loop. -/
theorem parseTraceLoop_error (before : List Page) :
    ∀ (k : Nat) (p : Page) (after : List Page) (e : String),
    (∀ q ∈ before, ∃ t, q.get_text = Except.ok t) →
    p.get_text = Except.error e →
    parseTraceLoop k (before ++ p :: after) = Except.error e := by
  induction before with
  | nil =>
    intro k p after e _ hp
    simp [parseTraceLoop, processPage_get_text_error k p e hp]
  | cons q rest ih =>
    intro k p after e hok hp
    obtain ⟨t, ht⟩ := hok q (List.mem_cons_self ..)
    obtain ⟨step, hstep⟩ := processPage_ok_of_get_text_ok k q t ht
    have hrest := ih (k + 1) p after e (fun r hr => hok r (List.mem_cons_of_mem _ hr)) hp
    simp [parseTraceLoop, hstep, hrest]

end KrishiMitra

namespace KrishiMitra

/-- C1: when the document opens and direct extraction succeeds on every
page, and OCR succeeds wherever it is invoked, parse returns the per-page
texts joined in ascending page order by a blank line, where a page with at
least 50 stripped characters of direct text contributes that text, a page
with fewer contributes the OCR output, and OCR is invoked on a page
exactly when the stripped direct text is shorter than 50 characters. -/
theorem parse_ocr_fallback_spec (pages : List Page)
    (hget : ∀ p ∈ pages, ∃ t, p.get_text = Except.ok t)
    (hocr : ∀ p ∈ pages, ∀ t, p.get_text = Except.ok t →
        (pyStrip t).length < 50 → ∃ s, p.ocr = Except.ok s) :
    ∃ steps : List PageStep,
      parseTrace (Except.ok pages) = Except.ok steps
      ∧ PDFParser.parse (Except.ok pages)
          = Except.ok (String.intercalate "\n\n" (steps.map PageStep.contribution))
      ∧ steps.length = pages.length
      ∧ (∀ (i : Nat) (p : Page) (t : String),
          pages[i]? = some p → p.get_text = Except.ok t →
          ∃ step : PageStep, steps[i]? = some step
            ∧ (50 ≤ (pyStrip t).length → step.contribution = t)
            ∧ (∀ s, p.ocr = Except.ok s → (pyStrip t).length < 50 →
                step.contribution = s)
            ∧ step.ocrInvoked = decide ((pyStrip t).length < 50)) := by
  obtain ⟨steps, hloop, hlen, hidx⟩ := parseTraceLoop_spec pages 0 hget
  have htr : parseTrace (Except.ok pages) = Except.ok steps := by
    simpa [parseTrace] using hloop
  refine ⟨steps, htr, by simp [PDFParser.parse, htr, Except.map], hlen, ?_⟩
  intro i p t hp hget2
  obtain ⟨step, hst, hproc⟩ := hidx i p hp
  have hz : (0 : Nat) + i = i := by omega
  rw [hz] at hproc
  refine ⟨step, hst, ?_, ?_, ?_⟩
  · intro hge
    have hlt : ¬ (pyStrip t).length < 50 := by omega
    have h2 := (processPage_direct i p t hget2 hlt).symm.trans hproc
    have h3 := Except.ok.inj h2
    rw [← h3]
  · intro s hocr2 hlt
    have h2 := (processPage_ocr i p t s hget2 hlt hocr2).symm.trans hproc
    have h3 := Except.ok.inj h2
    rw [← h3]
  · by_cases hlt : (pyStrip t).length < 50
    · cases hocr2 : p.ocr with
      | ok s =>
        have h2 := (processPage_ocr i p t s hget2 hlt hocr2).symm.trans hproc
        have h3 := Except.ok.inj h2
        rw [← h3]
        simp [hlt]
      | error e =>
        have h2 := (processPage_ocr_error i p t e hget2 hlt hocr2).symm.trans hproc
        have h3 := Except.ok.inj h2
        rw [← h3]
        simp [hlt]
    · have h2 := (processPage_direct i p t hget2 hlt).symm.trans hproc
      have h3 := Except.ok.inj h2
      rw [← h3]
      simp [hlt]

/-- Sample page whose direct text is short and whose OCR succeeds. -/
def sampleShortPage : Page :=
  { get_text := Except.ok "short", ocr := Except.ok "ocr output text" }

/-- Sample page whose direct text is short and whose OCR raises. -/
def sampleFailPage : Page :=
  { get_text := Except.ok "tiny", ocr := Except.error "tesseract missing" }

/-- Witness for C1 on a one-page document whose direct text is short. -/
theorem parse_ocr_fallback_spec_witness :
    ∃ steps : List PageStep,
      parseTrace (Except.ok [sampleShortPage]) = Except.ok steps
      ∧ PDFParser.parse (Except.ok [sampleShortPage])
          = Except.ok (String.intercalate "\n\n" (steps.map PageStep.contribution))
      ∧ steps.length = [sampleShortPage].length
      ∧ (∀ (i : Nat) (p : Page) (t : String),
          [sampleShortPage][i]? = some p → p.get_text = Except.ok t →
          ∃ step : PageStep, steps[i]? = some step
            ∧ (50 ≤ (pyStrip t).length → step.contribution = t)
            ∧ (∀ s, p.ocr = Except.ok s → (pyStrip t).length < 50 →
                step.contribution = s)
            ∧ step.ocrInvoked = decide ((pyStrip t).length < 50)) :=
  parse_ocr_fallback_spec [sampleShortPage]
    (by
      intro p hp
      simp at hp
      subst hp
      exact ⟨"short", rfl⟩)
    (by
      intro p hp t _ _
      simp at hp
      subst hp
      exact ⟨"ocr output text", rfl⟩)

/-- C8: an OCR failure on a page does not fail parse: that page contributes
the bracketed placeholder with its 1-based number and every page is still
processed; by contrast a failure to open the document, or a failure of
direct text extraction on some page, is re-raised. -/
theorem parse_error_handling_spec :
    (∀ e, PDFParser.parse (Except.error e) = Except.error e)
    ∧ (∀ (before : List Page) (p : Page) (after : List Page) (e : String),
        (∀ q ∈ before, ∃ t, q.get_text = Except.ok t) →
        p.get_text = Except.error e →
        PDFParser.parse (Except.ok (before ++ p :: after)) = Except.error e)
    ∧ (∀ (pages : List Page) (n : Nat) (p : Page) (t e : String),
        (∀ q ∈ pages, ∃ u, q.get_text = Except.ok u) →
        pages[n]? = some p → p.get_text = Except.ok t →
        (pyStrip t).length < 50 → p.ocr = Except.error e →
        ∃ steps : List PageStep,
          parseTrace (Except.ok pages) = Except.ok steps
          ∧ steps.length = pages.length
          ∧ steps[n]? = some { contribution := "[OCR ERROR ON PAGE " ++ toString (n + 1) ++ "]",
                               ocrInvoked := true, ocrApplied := false }
          ∧ PDFParser.parse (Except.ok pages)
              = Except.ok (String.intercalate "\n\n" (steps.map PageStep.contribution))) := by
  refine ⟨fun e => rfl, ?_, ?_⟩
  · intro before p after e hok hp
    have h := parseTraceLoop_error before 0 p after e hok hp
    simp [PDFParser.parse, parseTrace, h, Except.map]
  · intro pages n p t e hok hn hget hlt hocr
    obtain ⟨steps, hloop, hlen, hidx⟩ := parseTraceLoop_spec pages 0 hok
    have htr : parseTrace (Except.ok pages) = Except.ok steps := by
      simpa [parseTrace] using hloop
    obtain ⟨step, hst, hproc⟩ := hidx n p hn
    have hz : (0 : Nat) + n = n := by omega
    rw [hz] at hproc
    have h2 := (processPage_ocr_error n p t e hget hlt hocr).symm.trans hproc
    have h3 := Except.ok.inj h2
    refine ⟨steps, htr, hlen, ?_, by simp [PDFParser.parse, htr, Except.map]⟩
    rw [← h3] at hst
    exact hst

/-- Witness for C8 on a one-page document whose OCR raises. -/
theorem parse_error_handling_spec_witness :
    ∃ steps : List PageStep,
      parseTrace (Except.ok [sampleFailPage]) = Except.ok steps
      ∧ steps.length = [sampleFailPage].length
      ∧ steps[0]? = some { contribution := "[OCR ERROR ON PAGE " ++ toString (0 + 1) ++ "]",
                           ocrInvoked := true, ocrApplied := false }
      ∧ PDFParser.parse (Except.ok [sampleFailPage])
          = Except.ok (String.intercalate "\n\n" (steps.map PageStep.contribution)) :=
  parse_error_handling_spec.2.2 [sampleFailPage] 0 sampleFailPage "tiny" "tesseract missing"
    (by
      intro q hq
      simp at hq
      subst hq
      exact ⟨"tiny", rfl⟩)
    rfl rfl (by decide) rfl

end KrishiMitra

namespace KrishiMitra

/-- Outcome state for the stateful PDFParser object: the stored extracted
text and the has_parsed flag (parser/parser.py lines 31 to 34). -/
structure PDFParserState where
  extracted_text : String
  has_parsed : Bool
deriving DecidableEq, Repr

/-- State right after PDFParser.__init__ on an existing file. -/
def initState : PDFParserState := { extracted_text := "", has_parsed := false }

/-- Result of calling a PDFParser method: the returned value or raised
exception, the object state afterwards, and how many times the parse
method ran during the call.  For save_text_to_file the returned value is
the text written to the file; the file system itself is abstracted away. -/
structure MethodResult where
  ret : Except String String
  state : PDFParserState
  parseCalls : Nat

/-- The parse method as a state transformer (parser/parser.py lines 42 to
108): on success it stores the joined text and sets has_parsed; on failure
the stored fields are untouched and the exception is re-raised. -/
def PDFParser.parseMethod (doc : Except String (List Page))
    (s : PDFParserState) : MethodResult :=
  match PDFParser.parse doc with
  | .ok text =>
      { ret := .ok text,
        state := { extracted_text := text, has_parsed := true },
        parseCalls := 1 }
  | .error e => { ret := .error e, state := s, parseCalls := 1 }

/-- PDFParser.get_text (parser/parser.py lines 140 to 152): parses first
when has_parsed is not set, then returns the stored extracted text. -/
def PDFParser.get_text (doc : Except String (List Page))
    (s : PDFParserState) : MethodResult :=
  if s.has_parsed then { ret := .ok s.extracted_text, state := s, parseCalls := 0 }
  else
    let r := PDFParser.parseMethod doc s
    match r.ret with
    | .ok _ => { ret := .ok r.state.extracted_text, state := r.state,
                 parseCalls := r.parseCalls }
    | .error e => { ret := .error e, state := r.state, parseCalls := r.parseCalls }

/-- PDFParser.save_text_to_file (parser/parser.py lines 110 to 138):
parses first when has_parsed is not set, then writes the stored extracted
text, returned here in place of the output path. -/
def PDFParser.save_text_to_file (doc : Except String (List Page))
    (s : PDFParserState) : MethodResult :=
  if s.has_parsed then { ret := .ok s.extracted_text, state := s, parseCalls := 0 }
  else
    let r := PDFParser.parseMethod doc s
    match r.ret with
    | .ok _ => { ret := .ok r.state.extracted_text, state := r.state,
                 parseCalls := r.parseCalls }
    | .error e => { ret := .error e, state := r.state, parseCalls := r.parseCalls }

theorem get_text_of_parsed (doc : Except String (List Page))
    (s : PDFParserState) (h : s.has_parsed = true) :
    PDFParser.get_text doc s
      = { ret := Except.ok s.extracted_text, state := s, parseCalls := 0 } := by
  simp [PDFParser.get_text, h]

theorem get_text_of_unparsed_ok (doc : Except String (List Page))
    (s : PDFParserState) (u : String)
    (hflag : s.has_parsed = false) (hp : PDFParser.parse doc = Except.ok u) :
    PDFParser.get_text doc s
      = { ret := Except.ok u,
          state := { extracted_text := u, has_parsed := true }, parseCalls := 1 } := by
  simp [PDFParser.get_text, PDFParser.parseMethod, hflag, hp]

theorem get_text_of_unparsed_error (doc : Except String (List Page))
    (s : PDFParserState) (e : String)
    (hflag : s.has_parsed = false) (hp : PDFParser.parse doc = Except.error e) :
    PDFParser.get_text doc s
      = { ret := Except.error e, state := s, parseCalls := 1 } := by
  simp [PDFParser.get_text, PDFParser.parseMethod, hflag, hp]

theorem save_text_of_parsed (doc : Except String (List Page))
    (s : PDFParserState) (h : s.has_parsed = true) :
    PDFParser.save_text_to_file doc s
      = { ret := Except.ok s.extracted_text, state := s, parseCalls := 0 } := by
  simp [PDFParser.save_text_to_file, h]

/-- C9: a successful parse stores the returned text and sets has_parsed;
on a state with has_parsed set, get_text and save_text_to_file return the
stored text with zero parse calls; and a second get_text after a
successful one returns the same string, leaves the state unchanged and
runs parse zero times. -/
theorem parser_parses_once (doc : Except String (List Page)) (s : PDFParserState) :
    (∀ text, (PDFParser.parseMethod doc s).ret = Except.ok text →
        (PDFParser.parseMethod doc s).state.has_parsed = true
        ∧ (PDFParser.parseMethod doc s).state.extracted_text = text)
    ∧ (s.has_parsed = true →
        PDFParser.get_text doc s
            = { ret := Except.ok s.extracted_text, state := s, parseCalls := 0 }
        ∧ PDFParser.save_text_to_file doc s
            = { ret := Except.ok s.extracted_text, state := s, parseCalls := 0 })
    ∧ (∀ t1, (PDFParser.get_text doc s).ret = Except.ok t1 →
        PDFParser.get_text doc (PDFParser.get_text doc s).state
          = { ret := Except.ok t1, state := (PDFParser.get_text doc s).state,
              parseCalls := 0 }) := by
  refine ⟨?_, ?_, ?_⟩
  · intro text h
    unfold PDFParser.parseMethod at h ⊢
    cases hp : PDFParser.parse doc with
    | ok u =>
      rw [hp] at h
      simp at h
      subst h
      simp [hp]
    | error e =>
      rw [hp] at h
      simp at h
  · intro h
    exact ⟨get_text_of_parsed doc s h, save_text_of_parsed doc s h⟩
  · intro t1 h1
    cases hflag : s.has_parsed with
    | true =>
      rw [get_text_of_parsed doc s hflag] at h1 ⊢
      simp at h1
      rw [get_text_of_parsed doc s hflag, h1]
    | false =>
      cases hp : PDFParser.parse doc with
      | ok u =>
        rw [get_text_of_unparsed_ok doc s u hflag hp] at h1 ⊢
        simp at h1
        rw [get_text_of_parsed doc _ rfl, h1]
      | error e =>
        rw [get_text_of_unparsed_error doc s e hflag hp] at h1
        simp at h1

/-- Witness for C9 on a zero-page document, whose parse succeeds with the
empty string. -/
theorem parser_parses_once_witness :
    PDFParser.get_text (Except.ok ([] : List Page))
        ((PDFParser.get_text (Except.ok ([] : List Page)) initState).state)
      = { ret := Except.ok "",
          state := (PDFParser.get_text (Except.ok ([] : List Page)) initState).state,
          parseCalls := 0 } :=
  (parser_parses_once (Except.ok ([] : List Page)) initState).2.2 "" rfl

end KrishiMitra

namespace KrishiMitra

/-- Response object of llm.invoke in utils/chat.py: the content attribute
and the usage_metadata token counts, each possibly absent, in which case
the corresponding attribute access raises. -/
structure LLMResponse where
  content : Option String
  usage : Option (Nat × Nat)

/-- Result of a successful invoke_llm_langchain call: the message list
with the AI reply appended, the token counts, the sleeps performed (in
seconds) and the number of llm.invoke attempts. -/
structure InvokeResult where
  messages : List Message
  input_tokens : Nat
  output_tokens : Nat
  sleeps : List Nat
  attempts : Nat

/-- The response unpacking of invoke_llm_langchain (utils/chat.py lines 26
to 33): content and token counts are read together, and any failure of the
block falls back to the raw response with both counts zero.  The raw
fallback string form of the response is supplied by reprOf. -/
def unpackResponse (reprOf : LLMResponse → String) (resp : LLMResponse) :
    String × Nat × Nat :=
  match resp.content, resp.usage with
  | some c, some u => (c, u.1, u.2)
  | _, _ => (reprOf resp, 0, 0)

/-- invoke_llm_langchain (utils/chat.py lines 7 to 37): one llm.invoke
attempt, a 10 second sleep and a single retry on failure, a second failure
propagating; on success the reply content is appended as one AI message
and the token counts are returned, zero when usage metadata is absent. -/
def invoke_llm_langchain (llm : Nat → Except String LLMResponse)
    (reprOf : LLMResponse → String) (messages : List Message) :
    Except String InvokeResult :=
  match llm 0 with
  | .ok resp =>
    let (content, input_tokens, output_tokens) := unpackResponse reprOf resp
    .ok { messages := messages ++ [Message.ai content],
          input_tokens := input_tokens, output_tokens := output_tokens,
          sleeps := [], attempts := 1 }
  | .error _ =>
    match llm 1 with
    | .ok resp =>
      let (content, input_tokens, output_tokens) := unpackResponse reprOf resp
      .ok { messages := messages ++ [Message.ai content],
            input_tokens := input_tokens, output_tokens := output_tokens,
            sleeps := [10], attempts := 2 }
    | .error e => .error e

/-- C10: a failed first llm.invoke is retried exactly once after a 10
second sleep, a second failure propagating to the caller; every successful
call appends exactly one AI message to the callers list; and the token
counts are zero whenever the response carries no usage metadata. -/
theorem invoke_llm_spec (llm : Nat → Except String LLMResponse)
    (reprOf : LLMResponse → String) (messages : List Message) :
    (∀ resp, llm 0 = Except.ok resp →
        ∃ r, invoke_llm_langchain llm reprOf messages = Except.ok r
          ∧ r.sleeps = [] ∧ r.attempts = 1)
    ∧ (∀ e resp, llm 0 = Except.error e → llm 1 = Except.ok resp →
        ∃ r, invoke_llm_langchain llm reprOf messages = Except.ok r
          ∧ r.sleeps = [10] ∧ r.attempts = 2)
    ∧ (∀ e1 e2, llm 0 = Except.error e1 → llm 1 = Except.error e2 →
        invoke_llm_langchain llm reprOf messages = Except.error e2)
    ∧ (∀ r, invoke_llm_langchain llm reprOf messages = Except.ok r →
        (∃ content, r.messages = messages ++ [Message.ai content])
        ∧ (∀ resp, llm (r.attempts - 1) = Except.ok resp → resp.usage = none →
            r.input_tokens = 0 ∧ r.output_tokens = 0)) := by
  refine ⟨?_, ?_, ?_, ?_⟩
  · intro resp h
    unfold invoke_llm_langchain
    rw [h]
    exact ⟨_, rfl, rfl, rfl⟩
  · intro e resp h0 h1
    unfold invoke_llm_langchain
    rw [h0, h1]
    exact ⟨_, rfl, rfl, rfl⟩
  · intro e1 e2 h0 h1
    unfold invoke_llm_langchain
    rw [h0, h1]
  · intro r hr
    unfold invoke_llm_langchain at hr
    cases h0 : llm 0 with
    | ok resp =>
      rw [h0] at hr
      simp at hr
      constructor
      · exact ⟨(unpackResponse reprOf resp).1, by rw [← hr]⟩
      · intro resp2 hresp2 husage
        rw [← hr] at hresp2 ⊢
        simp at hresp2
        rw [h0] at hresp2
        simp at hresp2
        subst hresp2
        simp [unpackResponse, husage]
    | error e =>
      rw [h0] at hr
      cases h1 : llm 1 with
      | ok resp =>
        rw [h1] at hr
        simp at hr
        constructor
        · exact ⟨(unpackResponse reprOf resp).1, by rw [← hr]⟩
        · intro resp2 hresp2 husage
          rw [← hr] at hresp2 ⊢
          simp at hresp2
          rw [h1] at hresp2
          simp at hresp2
          subst hresp2
          simp [unpackResponse, husage]
      | error e2 =>
        rw [h1] at hr
        simp at hr

/-- Witness for C10: a first failure followed by a successful retry whose
response has no usage metadata. -/
theorem invoke_llm_spec_witness :
    ∃ r, invoke_llm_langchain
        (fun n => if n = 0 then Except.error "rate limited"
                  else Except.ok { content := some "hello", usage := none })
        (fun _ => "raw") [Message.human "hi"] = Except.ok r
      ∧ r.sleeps = [10] ∧ r.attempts = 2 :=
  (invoke_llm_spec
    (fun n => if n = 0 then Except.error "rate limited"
              else Except.ok { content := some "hello", usage := none })
    (fun _ => "raw") [Message.human "hi"]).2.1 "rate limited"
    { content := some "hello", usage := none } rfl rfl

end KrishiMitra

namespace KrishiMitra

/-- Node returned by the retriever in RAG.rag_query: its text and its
metadata dictionary, modelled as an association list of string values. -/
structure RetrievedNode where
  text : String
  metadata : List (String × String)
deriving DecidableEq, Repr

/-- Python dict.get on an association list, returning none for a missing
key. -/
def metaGet (m : List (String × String)) (k : String) : Option String :=
  match m with
  | [] => none
  | (k2, v) :: rest => if k2 == k then some v else metaGet rest k

/-- Python str.capitalize, modelled character-wise on the ASCII range:
first character upper-cased, the rest lower-cased. -/
def pyCapitalize (s : String) : String :=
  match s.data with
  | [] => ""
  | c :: cs => String.mk (c.toUpper :: cs.map Char.toLower)

/-- The enumeration loop of RAG.rag_query (rag/rag.py lines 130 to 140):
builds context_parts and source_documents from the retrieved nodes, in
retrieval order, starting at index i. -/
def ragLoop : Nat → List RetrievedNode →
    List String × List (String × List (String × String))
  | _, [] => ([], [])
  | i, node :: rest =>
    let source_type := (metaGet node.metadata "source").getD "unknown"
    let doc_id := (metaGet node.metadata "doc_id").getD "unknown"
    let part := "[Document " ++ toString (i + 1) ++ "] " ++ pyCapitalize source_type
        ++ " " ++ doc_id ++ ": " ++ node.text
    let pair := ragLoop (i + 1) rest
    (part :: pair.1, (node.text, node.metadata) :: pair.2)

/-- Return value of RAG.rag_query (rag/rag.py lines 156 to 163); the
random query_id is not modelled. -/
structure RagResult where
  query : String
  result : String
  source_documents : List (String × List (String × String))
  input_tokens : Nat
  output_tokens : Nat

/-- RAG.rag_query (rag/rag.py lines 120 to 163): retrieval, context and
source-document assembly, prompt construction from the human_message
template, and one LLM call whose last message content is the result.  The
retriever, the prompt template and invoke_llm_langchain are supplied as
parameters. -/
def RAG.rag_query (llm : List Message → List Message × Nat × Nat)
    (template : String → String → String)
    (retrieve : String → List RetrievedNode) (query_text : String) : RagResult :=
  let retrieval_result := retrieve query_text
  let pair := ragLoop 0 retrieval_result
  let context := String.intercalate "\n\n" pair.1
  let prompt := template query_text context
  let r := llm [Message.human prompt]
  { query := query_text
    result := ((r.1.getLast?).map Message.content).getD ""
    source_documents := pair.2
    input_tokens := r.2.1
    output_tokens := r.2.2 }

/-- Characterization of the rag_query loop: source documents are the nodes
in order, and part i carries the 1-based document number k + i + 1. -/
theorem ragLoop_spec (nodes : List RetrievedNode) : ∀ k,
    (ragLoop k nodes).2 = nodes.map (fun n => (n.text, n.metadata))
    ∧ (ragLoop k nodes).1.length = nodes.length
    ∧ ∀ (i : Nat) (n : RetrievedNode), nodes[i]? = some n →
        (ragLoop k nodes).1[i]? = some
          ("[Document " ++ toString (k + i + 1) ++ "] "
            ++ pyCapitalize ((metaGet n.metadata "source").getD "unknown")
            ++ " " ++ (metaGet n.metadata "doc_id").getD "unknown"
            ++ ": " ++ n.text) := by
  induction nodes with
  | nil =>
    intro k
    exact ⟨rfl, rfl, by intro i n hn; simp at hn⟩
  | cons node rest ih =>
    intro k
    obtain ⟨h2, h1, hidx⟩ := ih (k + 1)
    refine ⟨?_, ?_, ?_⟩
    · simp [ragLoop, h2]
    · simp [ragLoop, h1]
    · intro i n hn
      cases i with
      | zero =>
        simp at hn
        subst hn
        simp [ragLoop]
      | succ m =>
        simp at hn
        have := hidx m n hn
        have harith : k + 1 + m = k + (m + 1) := by omega
        rw [harith] at this
        simpa [ragLoop] using this

/-- C5: rag_query lists every retrieved node text and metadata in
source_documents in retrieval order; the context parts number the nodes
from 1 and format each as the bracketed document header, the capitalized
source and the doc id, unknown when missing, then the node text; and the
result is the content of the last message returned by the LLM call on the
template filled with the query and the blank-line-joined context. -/
theorem rag_query_spec (llm : List Message → List Message × Nat × Nat)
    (template : String → String → String)
    (retrieve : String → List RetrievedNode) (query_text : String) :
    (RAG.rag_query llm template retrieve query_text).query = query_text
    ∧ (RAG.rag_query llm template retrieve query_text).source_documents
        = (retrieve query_text).map (fun n => (n.text, n.metadata))
    ∧ (∀ (i : Nat) (n : RetrievedNode), (retrieve query_text)[i]? = some n →
        (ragLoop 0 (retrieve query_text)).1[i]? = some
          ("[Document " ++ toString (i + 1) ++ "] "
            ++ pyCapitalize ((metaGet n.metadata "source").getD "unknown")
            ++ " " ++ (metaGet n.metadata "doc_id").getD "unknown"
            ++ ": " ++ n.text))
    ∧ (∀ (ms : List Message) (itok otok : Nat),
        llm [Message.human (template query_text
            (String.intercalate "\n\n" (ragLoop 0 (retrieve query_text)).1))]
          = (ms, itok, otok) →
        ∀ m, ms.getLast? = some m →
          (RAG.rag_query llm template retrieve query_text).result = m.content
          ∧ (RAG.rag_query llm template retrieve query_text).input_tokens = itok
          ∧ (RAG.rag_query llm template retrieve query_text).output_tokens = otok) := by
  obtain ⟨h2, h1, hidx⟩ := ragLoop_spec (retrieve query_text) 0
  refine ⟨rfl, by simpa [RAG.rag_query] using h2, ?_, ?_⟩
  · intro i n hn
    have := hidx i n hn
    simpa using this
  · intro ms itok otok hllm m hm
    refine ⟨?_, ?_, ?_⟩
    · show ((llm _).1.getLast?.map Message.content).getD "" = m.content
      rw [hllm]
      simp [hm]
    · show (llm _).2.1 = itok
      rw [hllm]
    · show (llm _).2.2 = otok
      rw [hllm]

/-- Sample retrieved node for the C5 witness. -/
def sampleNode : RetrievedNode :=
  { text := "hello", metadata := [("source", "text"), ("doc_id", "d1")] }

/-- Witness for C5 at a concrete retriever, template and LLM. -/
theorem rag_query_spec_witness :
    (RAG.rag_query (fun ms => (ms ++ [Message.ai "ANSWER"], 3, 4))
        (fun q c => q ++ "\n" ++ c) (fun _ => [sampleNode]) "my query").result
      = "ANSWER"
    ∧ (RAG.rag_query (fun ms => (ms ++ [Message.ai "ANSWER"], 3, 4))
        (fun q c => q ++ "\n" ++ c) (fun _ => [sampleNode]) "my query").source_documents
      = [("hello", [("source", "text"), ("doc_id", "d1")])] := by
  have h := rag_query_spec (fun ms => (ms ++ [Message.ai "ANSWER"], 3, 4))
    (fun q c => q ++ "\n" ++ c) (fun _ => [sampleNode]) "my query"
  refine ⟨(h.2.2.2 _ 3 4 rfl (Message.ai "ANSWER") rfl).1, ?_⟩
  rw [h.2.1]
  rfl

end KrishiMitra

namespace KrishiMitra

/-- Metadata values stored in the document and node dictionaries of
rag/rag.py: strings and integers. -/
inductive MetaVal where
  | str (s : String)
  | int (n : Nat)
deriving DecidableEq, Repr

/-- Python str() of a metadata value, as interpolated into chunk_id. -/
def MetaVal.toStr : MetaVal → String
  | .str s => s
  | .int n => toString n

/-- Python dict assignment on an association list: replace the value in
place when the key exists, append otherwise. -/
def dictSet : List (String × MetaVal) → String → MetaVal → List (String × MetaVal)
  | [], k, v => [(k, v)]
  | (k2, v2) :: rest, k, v =>
    if k2 == k then (k, v) :: rest else (k2, v2) :: dictSet rest k v

/-- Python dict lookup on an association list. -/
def dictGet : List (String × MetaVal) → String → Option MetaVal
  | [], _ => none
  | (k2, v) :: rest, k => if k2 == k then some v else dictGet rest k

/-- Document records built by RAG.prepare_documents_from_text: a content
string with a metadata dictionary. -/
structure DocRecord where
  content : String
  metadata : List (String × MetaVal)

/-- RAG.prepare_documents_from_text (rag/rag.py lines 55 to 71): a single
document holding the whole text, with source, section_id 1 and the
generated doc_id, the uuid being supplied as a parameter. -/
def RAG.prepare_documents_from_text (doc_id : String) (text : String) :
    List DocRecord :=
  [{ content := text,
     metadata := [("source", .str "text"), ("section_id", .int 1),
                  ("doc_id", .str doc_id)] }]

/-- Node produced by process_documents: chunk text and its metadata. -/
structure LlamaNode where
  text : String
  metadata : List (String × MetaVal)

/-- The node annotation loop of RAG.process_documents (rag/rag.py lines 81
to 88): each chunk keeps the document metadata and gains chunk_id,
chunk_index and total_chunks, the index counting from i. -/
def annotateNodes (docMeta : List (String × MetaVal)) (d : MetaVal)
    (total : Nat) : Nat → List String → List LlamaNode
  | _, [] => []
  | i, t :: rest =>
    { text := t,
      metadata := dictSet (dictSet (dictSet docMeta
          "chunk_id" (.str (d.toStr ++ "-chunk-" ++ toString i)))
          "chunk_index" (.int i))
          "total_chunks" (.int total) }
      :: annotateNodes docMeta d total (i + 1) rest

/-- RAG.process_documents (rag/rag.py lines 73 to 92): each document is
split by the SentenceSplitter — an external component supplied as the
splitter parameter — constructed with chunk_size 1000 and chunk_overlap
100, and the resulting nodes are annotated and concatenated in document
order. -/
def RAG.process_documents (splitter : Nat → Nat → String → List String) :
    List DocRecord → List LlamaNode
  | [] => []
  | doc :: rest =>
    let chunks := splitter 1000 100 doc.content
    annotateNodes doc.metadata ((dictGet doc.metadata "doc_id").getD (.str ""))
        chunks.length 0 chunks
      ++ RAG.process_documents splitter rest

/-- Characterization of the annotation loop. -/
theorem annotateNodes_spec (docMeta : List (String × MetaVal)) (d : MetaVal)
    (total : Nat) (chunks : List String) : ∀ k,
    (annotateNodes docMeta d total k chunks).length = chunks.length
    ∧ ∀ (i : Nat) (t : String), chunks[i]? = some t →
        (annotateNodes docMeta d total k chunks)[i]? = some
          { text := t,
            metadata := dictSet (dictSet (dictSet docMeta
                "chunk_id" (.str (d.toStr ++ "-chunk-" ++ toString (k + i))))
                "chunk_index" (.int (k + i)))
                "total_chunks" (.int total) } := by
  induction chunks with
  | nil =>
    intro k
    exact ⟨rfl, by intro i t ht; simp at ht⟩
  | cons c rest ih =>
    intro k
    obtain ⟨hlen, hidx⟩ := ih (k + 1)
    refine ⟨by simp [annotateNodes, hlen], ?_⟩
    intro i t ht
    cases i with
    | zero =>
      simp at ht
      subst ht
      simp [annotateNodes]
    | succ m =>
      simp at ht
      have := hidx m t ht
      have harith : k + 1 + m = k + (m + 1) := by omega
      rw [harith] at this
      simpa [annotateNodes] using this

/-- C6: on the single document prepared from a text, process_documents
invokes the splitter with chunk size 1000 and overlap 100, produces one
node per chunk in order, and annotates node i with chunk_id
doc_id-chunk-i, chunk_index i and total_chunks the number of chunks. -/
theorem process_documents_spec (splitter : Nat → Nat → String → List String)
    (doc_id text : String) :
    (RAG.process_documents splitter
        (RAG.prepare_documents_from_text doc_id text)).length
      = (splitter 1000 100 text).length
    ∧ ∀ (i : Nat) (t : String), (splitter 1000 100 text)[i]? = some t →
        ∃ node : LlamaNode,
          (RAG.process_documents splitter
              (RAG.prepare_documents_from_text doc_id text))[i]? = some node
          ∧ node.text = t
          ∧ dictGet node.metadata "chunk_id"
              = some (.str (doc_id ++ "-chunk-" ++ toString i))
          ∧ dictGet node.metadata "chunk_index" = some (.int i)
          ∧ dictGet node.metadata "total_chunks"
              = some (.int (splitter 1000 100 text).length) := by
  obtain ⟨hlen, hidx⟩ := annotateNodes_spec
    [("source", .str "text"), ("section_id", .int 1), ("doc_id", .str doc_id)]
    (.str doc_id) (splitter 1000 100 text).length (splitter 1000 100 text) 0
  constructor
  · simp [RAG.process_documents, RAG.prepare_documents_from_text]
    simpa using hlen
  · intro i t ht
    have h := hidx i t ht
    have hz : (0 : Nat) + i = i := by omega
    rw [hz] at h
    refine ⟨{ text := t,
              metadata := dictSet (dictSet (dictSet
                  [("source", .str "text"), ("section_id", .int 1),
                   ("doc_id", .str doc_id)]
                  "chunk_id" (.str ((MetaVal.str doc_id).toStr ++ "-chunk-" ++ toString i)))
                  "chunk_index" (.int i))
                  "total_chunks" (.int (splitter 1000 100 text).length) },
            ?_, rfl, ?_, ?_, ?_⟩
    · show (RAG.process_documents splitter
          (RAG.prepare_documents_from_text doc_id text))[i]? = _
      simp only [RAG.process_documents, RAG.prepare_documents_from_text,
        List.append_nil]
      exact h
    · simp [MetaVal.toStr, dictSet, dictGet]
    · simp [dictSet, dictGet]
    · simp [dictSet, dictGet]

/-- Witness for C6 at a concrete two-chunk splitter. -/
theorem process_documents_spec_witness :
    ∃ node : LlamaNode,
      (RAG.process_documents (fun _ _ s => [s, s])
          (RAG.prepare_documents_from_text "d1" "hello"))[1]? = some node
      ∧ node.text = "hello"
      ∧ dictGet node.metadata "chunk_id"
          = some (.str ("d1" ++ "-chunk-" ++ toString 1))
      ∧ dictGet node.metadata "chunk_index" = some (.int 1)
      ∧ dictGet node.metadata "total_chunks"
          = some (.int ((fun (_ _ : Nat) (s : String) => [s, s]) 1000 100 "hello").length) :=
  (process_documents_spec (fun _ _ s => [s, s]) "d1" "hello").2 1 "hello" rfl

end KrishiMitra

namespace KrishiMitra

/-- QAPair as constructed by the agents (agents/schemas.py and the
backend schema with string answers): the query, a primary and an optional
secondary answer, and references.  Pydantic validation is abstracted. -/
structure QAPair where
  query : String
  answer1 : Option String
  answer2 : Option String
  references : List String
deriving Repr

/-- TokenTracker (agents/schemas.py): token counters, None before the
first agent call. -/
structure TokenTracker where
  net_input_tokens : Option Nat
  net_output_tokens : Option Nat
  net_tokens : Option Nat
deriving Repr

/-- Messages entries of the chat history (agents/schemas.py): a type tag
and a content string; the timestamp is not modelled. -/
structure ChatMessage where
  type : String
  content : String
deriving Repr

/-- Session (agents/states.py, backend variant with pdf_path, next and
response): the mutable state threaded through the agents. -/
structure Session where
  id : String
  pdf_path : String
  messages : List Message
  token_tracker : TokenTracker
  qa_pairs : List (String × QAPair)
  chat_history : List ChatMessage
  response : Option String
  next : Option String

/-- Python dict assignment state.qa_pairs[query] = pair on an association
list: replace in place when the key exists, append otherwise. -/
def qaSet : List (String × QAPair) → String → QAPair → List (String × QAPair)
  | [], k, v => [(k, v)]
  | (k2, v2) :: rest, k, v =>
    if k2 == k then (k, v) :: rest else (k2, v2) :: qaSet rest k v

/-- External services an agent calls, in call order: the RAG retrieval
pipeline (RAG construction, create_db, create_retriever and the retrieval
inside rag_query), invoke_llm_langchain, the Tavily web search, IP
geolocation, and the Open-Meteo weather API. -/
inductive ExtCall where
  | ragRetrieve
  | llmInvoke
  | webSearch
  | geolocate
  | weatherApi
deriving DecidableEq, Repr

/-- Python truthiness of an optional string: a missing value and the empty
string are falsy. -/
def pyTruthy : Option String → Bool
  | none => false
  | some s => !s.isEmpty

/-- Python `x or d` on an optional string. -/
def pyOr (a : Option String) (d : String) : String :=
  if pyTruthy a then a.getD "" else d

/-- Query string used by get_crop_data (agents/crop.py line 40). -/
def cropQuery (state : Session) : String :=
  match state.messages.getLast? with
  | some m => m.content
  | none => "Get crop data"

/-- get_crop_data (agents/crop.py lines 34 to 96): RAG retrieval with an
LLM call inside rag_query, a direct LLM pass, and an LLM refinement pass;
the externally produced strings (str of the RAG response dict, the final
content) and the token counts are parameters.  The first-pass LLM content
only feeds the refine prompt and is not stored.  Returns the updated
session and the trace of external calls. -/
def get_crop_data (ragResponse finalContent : String)
    (in1 out1 in2 out2 : Nat) (state : Session) : Session × List ExtCall :=
  let query := cropQuery state
  let net_in := state.token_tracker.net_input_tokens.getD 0 + in1 + in2
  let net_out := state.token_tracker.net_output_tokens.getD 0 + out1 + out2
  ({ state with
      token_tracker := { net_input_tokens := some net_in,
                         net_output_tokens := some net_out,
                         net_tokens := some (net_in + net_out) }
      qa_pairs := qaSet state.qa_pairs query
        { query := query, answer1 := some finalContent, answer2 := none,
          references := [ragResponse] }
      chat_history := state.chat_history
        ++ [{ type := "ai", content := finalContent }]
      response := some finalContent },
   [.ragRetrieve, .llmInvoke, .llmInvoke, .llmInvoke])

/-- Result of utils.location.get_user_location as get_weather_data reads
it: the error key when present, the coordinates, the optional city and
region, and the str() form of the whole dict used in references. -/
structure LocationInfo where
  error : Option String
  latitude : String
  longitude : String
  city : Option String
  region : Option String
  asString : String

/-- The current_weather fields read by get_weather_data, each already in
its displayed str() form (a missing key displays as None). -/
structure WeatherInfo where
  temperature : String
  windspeed : String
  time : String

/-- Query string used by get_weather_data (agents/weather.py line 38). -/
def weatherQuery (state : Session) : String :=
  match state.messages.getLast? with
  | some m => m.content
  | none => "Weather report"

/-- The weather report text of get_weather_data (agents/weather.py lines
54 to 70): the formatted report on a successful fetch, the failure notice
otherwise. -/
def weatherFinalContent (loc : LocationInfo)
    (weather : Except String WeatherInfo) : String :=
  match weather with
  | .ok w =>
    let place_desc := pyOr loc.city (pyOr loc.region "your area")
    "🌤 Weather report for " ++ place_desc ++ ":\n- Temperature: "
      ++ w.temperature ++ "°C\n- Wind Speed: " ++ w.windspeed
      ++ " km/h\n- Report Time (UTC): " ++ w.time ++ "\n"
  | .error e => "❌ Failed to fetch weather data: " ++ e

/-- get_weather_data (agents/weather.py lines 28 to 88): geolocation, an
early return on a location error, the Open-Meteo fetch with its failure
caught, and the session update.  No RAG retrieval and no LLM call occur.
Returns the updated session and the trace of external calls. -/
def get_weather_data (loc : LocationInfo) (weather : Except String WeatherInfo)
    (state : Session) : Session × List ExtCall :=
  let user_query := weatherQuery state
  match loc.error with
  | some err =>
    let final_content := "❌ Could not determine your location: " ++ err
    ({ state with
        messages := state.messages ++ [Message.ai final_content]
        chat_history := state.chat_history
          ++ [{ type := "ai", content := final_content }] },
     [.geolocate])
  | none =>
    let final_content := weatherFinalContent loc weather
    ({ state with
        qa_pairs := qaSet state.qa_pairs user_query
          { query := user_query, answer1 := some final_content, answer2 := none,
            references := [loc.asString] }
        messages := state.messages ++ [Message.ai final_content]
        chat_history := state.chat_history
          ++ [{ type := "ai", content := final_content }] },
     [.geolocate, .weatherApi])

/-- Query string used by get_policy_data (agents/policy.py lines 40 to 43). -/
def policyQuery (state : Session) (topic : Option String) : String :=
  let user_query := match state.messages.getLast? with
    | some m => m.content
    | none => "Policy query"
  match topic with
  | some t => user_query ++ " | topic: " ++ t
  | none => user_query

/-- get_policy_data (agents/policy.py lines 27 to 120): RAG retrieval with
an LLM call inside rag_query, an LLM draft pass and an LLM refinement
pass, logging the RAG evidence, the draft and the final answer to the chat
history.  Returns the updated session and the trace of external calls. -/
def get_policy_data (topic : Option String)
    (ragResponse draftContent finalContent : String)
    (in1 out1 in2 out2 : Nat) (state : Session) : Session × List ExtCall :=
  let query := policyQuery state topic
  let net_in := state.token_tracker.net_input_tokens.getD 0 + in1 + in2
  let net_out := state.token_tracker.net_output_tokens.getD 0 + out1 + out2
  ({ state with
      chat_history := state.chat_history
        ++ [{ type := "rag", content := ragResponse },
            { type := "ai_draft", content := draftContent },
            { type := "ai", content := finalContent }]
      token_tracker := { net_input_tokens := some net_in,
                         net_output_tokens := some net_out,
                         net_tokens := some (net_in + net_out) }
      qa_pairs := qaSet state.qa_pairs query
        { query := query, answer1 := some finalContent,
          answer2 := some draftContent, references := [ragResponse] }
      messages := state.messages ++ [Message.ai finalContent] },
   [.ragRetrieve, .llmInvoke, .llmInvoke, .llmInvoke])

/-- Query string used by get_market_data (agents/market.py lines 43 to 45). -/
def marketQuery (state : Session) (location : Option String) : String :=
  let q := match state.messages.getLast? with
    | some m => m.content
    | none => "Market analysis"
  match location with
  | some loc => q ++ " | location: " ++ loc
  | none => q

/-- get_market_data (agents/market.py lines 35 to 132): Tavily search,
then RAG retrieval with an LLM call inside rag_query, an LLM draft pass on
the search results and an LLM refinement pass, logging search, RAG
evidence, draft and final answer.  Returns the updated session and the
trace of external calls. -/
def get_market_data (location : Option String)
    (tavilyJson ragResponse llmContent finalContent : String)
    (in1 out1 in2 out2 : Nat) (state : Session) : Session × List ExtCall :=
  let query := marketQuery state location
  let net_in := state.token_tracker.net_input_tokens.getD 0 + in1 + in2
  let net_out := state.token_tracker.net_output_tokens.getD 0 + out1 + out2
  ({ state with
      chat_history := state.chat_history
        ++ [{ type := "search", content := tavilyJson },
            { type := "rag", content := ragResponse },
            { type := "ai_draft", content := llmContent },
            { type := "ai", content := finalContent }]
      token_tracker := { net_input_tokens := some net_in,
                         net_output_tokens := some net_out,
                         net_tokens := some (net_in + net_out) }
      qa_pairs := qaSet state.qa_pairs query
        { query := query, answer1 := some finalContent,
          answer2 := some llmContent, references := [ragResponse, tavilyJson] }
      messages := state.messages ++ [Message.ai finalContent] },
   [.webSearch, .ragRetrieve, .llmInvoke, .llmInvoke, .llmInvoke])

end KrishiMitra

namespace KrishiMitra

/-- The property the spec asserts of every domain agent: the retrieval
pipeline runs, a language model is called, and the first retrieval
precedes the first language-model call. -/
def runsRagBeforeLLM (t : List ExtCall) : Prop :=
  ExtCall.ragRetrieve ∈ t ∧ ExtCall.llmInvoke ∈ t
    ∧ t.indexOf ExtCall.ragRetrieve < t.indexOf ExtCall.llmInvoke

/-- Concrete location result for the counterexample. -/
def sampleLocation : LocationInfo :=
  { error := none, latitude := "18.52", longitude := "73.86",
    city := some "Pune", region := none, asString := "(location dict)" }

/-- Concrete weather result for the counterexample. -/
def sampleWeather : WeatherInfo :=
  { temperature := "25.3", windspeed := "10.0", time := "2025-09-01T12:00" }

/-- Concrete session for the counterexample and witnesses. -/
def sampleSession : Session :=
  { id := "s1", pdf_path := "Dataset/KrishiMitra.docx",
    messages := [Message.human "What is the weather like right now"],
    token_tracker := { net_input_tokens := none, net_output_tokens := none,
                       net_tokens := none },
    qa_pairs := [], chat_history := [], response := none, next := none }

/-- Counterexample to C2: at a concrete session, location and weather
outcome, the weather agent makes no retrieval-pipeline call and no
language-model call at all, so it is not the case that every domain agent
runs the document retrieval pipeline before calling a language model. -/
theorem weather_agent_no_rag_counterexample :
    ¬ runsRagBeforeLLM
        (get_weather_data sampleLocation (Except.ok sampleWeather) sampleSession).2 := by
  intro h
  exact absurd h.1 (by decide)

/-- C2 (amended): the crop, market and policy agents each run the document
retrieval pipeline before their first language-model call and then blend
the retrieval result with further language-model calls; the weather agent
invokes neither the retrieval pipeline nor a language model on any input,
calling only geolocation and the weather API. -/
theorem agents_rag_llm_spec (ragResponse draftContent finalContent tavilyJson
      llmContent : String)
    (topic location : Option String) (in1 out1 in2 out2 : Nat)
    (loc : LocationInfo) (weather : Except String WeatherInfo)
    (state : Session) :
    runsRagBeforeLLM
      (get_crop_data ragResponse finalContent in1 out1 in2 out2 state).2
    ∧ runsRagBeforeLLM
      (get_market_data location tavilyJson ragResponse llmContent finalContent
        in1 out1 in2 out2 state).2
    ∧ runsRagBeforeLLM
      (get_policy_data topic ragResponse draftContent finalContent
        in1 out1 in2 out2 state).2
    ∧ ExtCall.ragRetrieve ∉ (get_weather_data loc weather state).2
    ∧ ExtCall.llmInvoke ∉ (get_weather_data loc weather state).2 := by
  refine ⟨?_, ?_, ?_, ?_, ?_⟩
  · show runsRagBeforeLLM [ExtCall.ragRetrieve, ExtCall.llmInvoke,
      ExtCall.llmInvoke, ExtCall.llmInvoke]
    unfold runsRagBeforeLLM
    decide
  · show runsRagBeforeLLM [ExtCall.webSearch, ExtCall.ragRetrieve,
      ExtCall.llmInvoke, ExtCall.llmInvoke, ExtCall.llmInvoke]
    unfold runsRagBeforeLLM
    decide
  · show runsRagBeforeLLM [ExtCall.ragRetrieve, ExtCall.llmInvoke,
      ExtCall.llmInvoke, ExtCall.llmInvoke]
    unfold runsRagBeforeLLM
    decide
  · cases h : loc.error <;> simp [get_weather_data, h]
  · cases h : loc.error <;> simp [get_weather_data, h]

/-- The invariant of the Q&A dictionary: every key maps to a pair whose
query field is that key. -/
def qaInvariant (qa : List (String × QAPair)) : Prop :=
  ∀ k p, (k, p) ∈ qa → p.query = k

/-- Inserting a pair whose query field equals its key preserves the
invariant. -/
theorem qaSet_invariant (qa : List (String × QAPair)) (k : String) (p : QAPair)
    (hinv : qaInvariant qa) (hp : p.query = k) : qaInvariant (qaSet qa k p) := by
  induction qa with
  | nil =>
    intro k2 p2 h
    simp [qaSet] at h
    rw [h.2, h.1]
    exact hp
  | cons kv rest ih =>
    intro k2 p2 h
    unfold qaSet at h
    by_cases hk : kv.1 == k
    · rw [if_pos (by cases kv; simpa using hk)] at h
      rcases List.mem_cons.mp h with h1 | h1
      · simp at h1
        rw [h1.2, h1.1]
        exact hp
      · exact hinv k2 p2 (List.mem_cons_of_mem _ h1)
    · rw [if_neg (by cases kv; simpa using hk)] at h
      rcases List.mem_cons.mp h with h1 | h1
      · exact hinv k2 p2 (by rw [h1]; exact List.mem_cons_self ..)
      · exact ih (fun a b hb => hinv a b (List.mem_cons_of_mem _ hb)) k2 p2 h1

/-- C7: starting from a session whose Q&A dictionary maps every key to a
pair whose query field equals that key, get_crop_data and get_weather_data
preserve that property, and each invocation adds or overwrites at most one
entry — the one keyed by the current user query (or none at all, on the
weather agent location-error path). -/
theorem qa_pairs_spec (ragResponse finalContent : String)
    (in1 out1 in2 out2 : Nat) (loc : LocationInfo)
    (weather : Except String WeatherInfo) (state : Session)
    (hinv : qaInvariant state.qa_pairs) :
    (qaInvariant
        (get_crop_data ragResponse finalContent in1 out1 in2 out2 state).1.qa_pairs
      ∧ ∃ p : QAPair, p.query = cropQuery state
          ∧ (get_crop_data ragResponse finalContent in1 out1 in2 out2 state).1.qa_pairs
              = qaSet state.qa_pairs (cropQuery state) p)
    ∧ (qaInvariant (get_weather_data loc weather state).1.qa_pairs
      ∧ ((get_weather_data loc weather state).1.qa_pairs = state.qa_pairs
          ∨ ∃ p : QAPair, p.query = weatherQuery state
              ∧ (get_weather_data loc weather state).1.qa_pairs
                  = qaSet state.qa_pairs (weatherQuery state) p)) := by
  constructor
  · constructor
    · exact qaSet_invariant state.qa_pairs (cropQuery state) _ hinv rfl
    · exact ⟨_, rfl, rfl⟩
  · cases h : loc.error with
    | some err =>
      have hqa : (get_weather_data loc weather state).1.qa_pairs
          = state.qa_pairs := by
        unfold get_weather_data
        rw [h]
      rw [hqa]
      exact ⟨hinv, Or.inl rfl⟩
    | none =>
      have hqa : (get_weather_data loc weather state).1.qa_pairs
          = qaSet state.qa_pairs (weatherQuery state)
              { query := weatherQuery state,
                answer1 := some (weatherFinalContent loc weather),
                answer2 := none, references := [loc.asString] } := by
        unfold get_weather_data
        rw [h]
      rw [hqa]
      exact ⟨qaSet_invariant state.qa_pairs (weatherQuery state) _ hinv rfl,
             Or.inr ⟨_, rfl, rfl⟩⟩

/-- Witness for C7 at a concrete session with an empty Q&A dictionary. -/
theorem qa_pairs_spec_witness :
    (qaInvariant
        (get_crop_data "rag evidence" "final answer" 1 2 3 4 sampleSession).1.qa_pairs
      ∧ ∃ p : QAPair, p.query = cropQuery sampleSession
          ∧ (get_crop_data "rag evidence" "final answer" 1 2 3 4 sampleSession).1.qa_pairs
              = qaSet sampleSession.qa_pairs (cropQuery sampleSession) p)
    ∧ (qaInvariant
        (get_weather_data sampleLocation (Except.ok sampleWeather) sampleSession).1.qa_pairs
      ∧ ((get_weather_data sampleLocation (Except.ok sampleWeather) sampleSession).1.qa_pairs
            = sampleSession.qa_pairs
          ∨ ∃ p : QAPair, p.query = weatherQuery sampleSession
              ∧ (get_weather_data sampleLocation (Except.ok sampleWeather) sampleSession).1.qa_pairs
                  = qaSet sampleSession.qa_pairs (weatherQuery sampleSession) p)) :=
  qa_pairs_spec "rag evidence" "final answer" 1 2 3 4 sampleLocation
    (Except.ok sampleWeather) sampleSession
    (by intro k p hp; simp [sampleSession] at hp)

end KrishiMitra

namespace KrishiMitra

/-- Outcome of running a wrapped agent inside a graph node: the session the
agent returned — in the code the same state object, mutated in place — or
the message of the exception it raised together with the session as the
mutations made before the raise left it.  Either way the wrapper then
reads state.messages from that session. -/
inductive AgentRun where
  | ok (result : Session)
  | err (after : Session) (msg : String)

/-- The session whose messages the wrapper reads after the agent call. -/
def agentSession : AgentRun → Session
  | .ok result => result
  | .err after _ => after

/-- crop_node from krishimitra.py (lines 50 to 61): runs the crop agent,
catches any exception, and appends one AI message holding str(out) — the
agent result on success, the error string on failure — to the message list
of the session the agent left behind.  The Python str() form of a session
is supplied as strOf. -/
def crop_node (strOf : Session → String) (run : AgentRun) : NodeUpdate :=
  let out := match run with
    | .ok result => strOf result
    | .err _ e => "CropResearch error: " ++ e
  { response := out,
    messages := (agentSession run).messages ++ [Message.ai out] }

/-- market_node from krishimitra.py (lines 63 to 71). -/
def market_node (strOf : Session → String) (run : AgentRun) : NodeUpdate :=
  let out := match run with
    | .ok result => strOf result
    | .err _ e => "MarketAgent error: " ++ e
  { response := out,
    messages := (agentSession run).messages ++ [Message.ai out] }

/-- weather_node from krishimitra.py (lines 73 to 81). -/
def weather_node (strOf : Session → String) (run : AgentRun) : NodeUpdate :=
  let out := match run with
    | .ok result => strOf result
    | .err _ e => "WeatherAgent error: " ++ e
  { response := out,
    messages := (agentSession run).messages ++ [Message.ai out] }

/-- policy_node from krishimitra.py (lines 83 to 91). -/
def policy_node (strOf : Session → String) (run : AgentRun) : NodeUpdate :=
  let out := match run with
    | .ok result => strOf result
    | .err _ e => "PolicyAgent error: " ++ e
  { response := out,
    messages := (agentSession run).messages ++ [Message.ai out] }

/-- Python str() of a session, fixed arbitrarily for concrete inputs. -/
def sampleStrOf : Session → String := fun _ => "(session repr)"

/-- Counterexample to C4: at a concrete session on which the weather agent
succeeds, weather_node returns the input message list with two AI messages
appended — the one get_weather_data itself appended to state.messages in
place (weather.py line 82) and the one the wrapper adds — so its messages
are not the input list with exactly one AI message appended. -/
theorem node_wrappers_counterexample :
    ¬ ∃ c : String,
      (weather_node sampleStrOf
          (AgentRun.ok
            (get_weather_data sampleLocation (Except.ok sampleWeather)
              sampleSession).1)).messages
        = sampleSession.messages ++ [Message.ai c] := by
  intro hex
  obtain ⟨c, hc⟩ := hex
  have hlen := congrArg List.length hc
  simp [weather_node, agentSession, get_weather_data, sampleLocation,
    sampleSession] at hlen

/-- C4 (amended): no node wrapper propagates an exception; each returns a
dict whose messages are the message list of the session the wrapped agent
left behind, with exactly one further AI message appended whose content is
the response string — str() of the agent result on success, the error
string built from the agent name and exception text on failure.  Relative
to the input session: the crop agent never touches state.messages, so
crop_node appends exactly one AI message to the input list; the weather,
market and policy agents append their own AI message to state.messages in
place before returning, so on success those wrappers return the input list
with two AI messages appended. -/
theorem node_wrappers_amended_spec (strOf : Session → String) (run : AgentRun)
    (ragResponse draftContent finalContent tavilyJson llmContent : String)
    (topic location : Option String) (in1 out1 in2 out2 : Nat)
    (loc : LocationInfo) (weather : Except String WeatherInfo)
    (state : Session) :
    ((crop_node strOf run).messages
        = (agentSession run).messages
          ++ [Message.ai (crop_node strOf run).response])
    ∧ ((market_node strOf run).messages
        = (agentSession run).messages
          ++ [Message.ai (market_node strOf run).response])
    ∧ ((weather_node strOf run).messages
        = (agentSession run).messages
          ++ [Message.ai (weather_node strOf run).response])
    ∧ ((policy_node strOf run).messages
        = (agentSession run).messages
          ++ [Message.ai (policy_node strOf run).response])
    ∧ (∀ result, run = .ok result →
        (crop_node strOf run).response = strOf result
        ∧ (market_node strOf run).response = strOf result
        ∧ (weather_node strOf run).response = strOf result
        ∧ (policy_node strOf run).response = strOf result)
    ∧ (∀ after e, run = .err after e →
        (crop_node strOf run).response = "CropResearch error: " ++ e
        ∧ (market_node strOf run).response = "MarketAgent error: " ++ e
        ∧ (weather_node strOf run).response = "WeatherAgent error: " ++ e
        ∧ (policy_node strOf run).response = "PolicyAgent error: " ++ e)
    ∧ ((crop_node strOf (.ok (get_crop_data ragResponse finalContent
            in1 out1 in2 out2 state).1)).messages
        = state.messages
          ++ [Message.ai (strOf (get_crop_data ragResponse finalContent
                in1 out1 in2 out2 state).1)])
    ∧ (∃ c : String,
        (weather_node strOf (.ok (get_weather_data loc weather state).1)).messages
          = state.messages
            ++ [Message.ai c,
                Message.ai (strOf (get_weather_data loc weather state).1)])
    ∧ ((market_node strOf (.ok (get_market_data location tavilyJson ragResponse
            llmContent finalContent in1 out1 in2 out2 state).1)).messages
        = state.messages
          ++ [Message.ai finalContent,
              Message.ai (strOf (get_market_data location tavilyJson ragResponse
                llmContent finalContent in1 out1 in2 out2 state).1)])
    ∧ ((policy_node strOf (.ok (get_policy_data topic ragResponse draftContent
            finalContent in1 out1 in2 out2 state).1)).messages
        = state.messages
          ++ [Message.ai finalContent,
              Message.ai (strOf (get_policy_data topic ragResponse draftContent
                finalContent in1 out1 in2 out2 state).1)]) := by
  refine ⟨?_, ?_, ?_, ?_, ?_, ?_, ?_, ?_, ?_, ?_⟩
  · cases run <;> simp [crop_node, agentSession]
  · cases run <;> simp [market_node, agentSession]
  · cases run <;> simp [weather_node, agentSession]
  · cases run <;> simp [policy_node, agentSession]
  · intro result h
    subst h
    exact ⟨rfl, rfl, rfl, rfl⟩
  · intro after e h
    subst h
    exact ⟨rfl, rfl, rfl, rfl⟩
  · simp [crop_node, agentSession, get_crop_data]
  · cases h : loc.error with
    | some err =>
      refine ⟨"❌ Could not determine your location: " ++ err, ?_⟩
      unfold get_weather_data weather_node agentSession
      rw [h]
      simp
    | none =>
      refine ⟨weatherFinalContent loc weather, ?_⟩
      unfold get_weather_data weather_node agentSession
      rw [h]
      simp
  · simp [market_node, agentSession, get_market_data]
  · simp [policy_node, agentSession, get_policy_data]

/-- Witness for C4 at a concrete failing agent run. -/
theorem node_wrappers_amended_spec_witness :
    (crop_node sampleStrOf (AgentRun.err sampleSession "boom")).response
      = "CropResearch error: " ++ "boom"
    ∧ (market_node sampleStrOf (AgentRun.err sampleSession "boom")).response
      = "MarketAgent error: " ++ "boom"
    ∧ (weather_node sampleStrOf (AgentRun.err sampleSession "boom")).response
      = "WeatherAgent error: " ++ "boom"
    ∧ (policy_node sampleStrOf (AgentRun.err sampleSession "boom")).response
      = "PolicyAgent error: " ++ "boom" :=
  (node_wrappers_amended_spec sampleStrOf (AgentRun.err sampleSession "boom")
    "rag" "draft" "final" "tavily" "llm" none none 1 2 3 4 sampleLocation
    (Except.ok sampleWeather) sampleSession).2.2.2.2.2.1 sampleSession "boom" rfl

end KrishiMitra
